import Mathlib

/-!
Verification of `HWComposer` (services/surfaceflinger/DisplayHardware/HWComposer.cpp)
against its natural-language specification.

The development shallowly embeds the per-display state owned by `HWComposer`
(`mDisplayData`, `mPhysicalDisplayIdMap`, the primary/secondary handle slots and
the multi-display-support flag) together with the operations the claims are
about.  The hardware composing device (`mComposer` / `HWC2::Display`) is an
external collaborator: each embedded operation takes a `Device` record holding
the device's response to every call the operation may issue, and returns — in
addition to its result and successor state — the list of device calls it made,
so that "no present call is issued this frame" style properties are statable.

Machine integers: display handles, ids and layer handles are opaque and are
modelled as `Nat`; timestamps and time points are `Int` (int64 values never
approach overflow in any claim, no arithmetic is performed on them beyond
equality tests, so no modular reduction arises).
-/

namespace HWComposer

/-- `status_t` values returned by the embedded operations
(`utils/Errors.h` is outside the excerpt; the constants are the standard
Android status codes named throughout the source). -/
inductive Status where
  | NO_ERROR
  | BAD_INDEX
  | BAD_VALUE
  | UNKNOWN_ERROR
  | INVALID_OPERATION
deriving DecidableEq, Repr

/-- `hal::Error` codes from the composing device. -/
inductive HalError where
  | NONE
  | HAS_CHANGES
  | BAD_DISPLAY
  | BAD_PARAMETER
  | NO_RESOURCES
  | UNSUPPORTED
deriving DecidableEq, Repr

/-- Modelled from the spec: `hasChangesError` (declared outside the excerpt) —
"a device error code representing has-pending-changes is treated as success,
not failure" — holds exactly for the HAS_CHANGES code. -/
def hasChangesError (e : HalError) : Prop := e = HalError.HAS_CHANGES

instance (e : HalError) : Decidable (hasChangesError e) := by
  unfold hasChangesError; infer_instance

/-- Modelled from the spec: an `sp<Fence>` is either the `Fence::NO_FENCE`
sentinel ("no wait required") or a real fence handle (`Fence` lives in
libs/ui, outside the excerpt). -/
inductive Fence where
  | noFence
  | mk (id : Nat)
deriving DecidableEq, Repr

/-- Modelled from the spec: `Fence::SIGNAL_TIME_PENDING`, the signal-time
sentinel of a fence that has not signaled yet (int64 maximum). -/
def SIGNAL_TIME_PENDING : Int := 9223372036854775807

/-- One frame's negotiation result (`HWComposer::DeviceRequestedChanges`):
changed composition types per layer, display request flags, per-layer request
flags, and the client-target property hint. -/
structure DeviceRequestedChanges where
  changedTypes : List (Nat × Nat)
  displayRequests : Nat
  layerRequests : List (Nat × Nat)
  clientTargetProperty : Nat × Nat
deriving DecidableEq, Repr

/-- Per-display mutable state (`HWComposer::DisplayData` plus the connected
flag and handle owned by its `HWC2::Display`). -/
structure DisplayData where
  hwcId : Nat
  connected : Bool
  isVirtual : Bool
  lastHwVsync : Int
  vsyncTraceToggle : Bool
  lastPresentFence : Fence
  releaseFences : List (Nat × Fence)
  validateWasSkipped : Bool
  presentError : HalError
deriving DecidableEq, Repr

/-- The default-constructed `DisplayData` produced by `mDisplayData[displayId]`
for an absent key. -/
def defaultDisplayData : DisplayData :=
  { hwcId := 0
    connected := false
    isVirtual := false
    lastHwVsync := 0
    vsyncTraceToggle := false
    lastPresentFence := Fence.noFence
    releaseFences := []
    validateWasSkipped := false
    presentError := HalError.NONE }

/-- The `HWComposer` state shared by all operations. -/
structure HWCState where
  displayData : List (Nat × DisplayData)
  physicalDisplayIdMap : List (Nat × Nat)
  internalHwcDisplayId : Option Nat
  externalHwcDisplayId : Option Nat
  hasMultiDisplaySupport : Bool
  maxVirtualDisplayDimension : Nat
  updateDeviceProductInfoOnHotplugReconnect : Bool
deriving DecidableEq, Repr

/-- Association-list lookup (`std::unordered_map::find` / `count`). -/
def alookup {α : Type} (m : List (Nat × α)) (k : Nat) : Option α :=
  match m with
  | [] => none
  | (k', v) :: rest => if k' = k then some v else alookup rest k

/-- Association-list write (`operator[]` assignment: replace or append). -/
def aset {α : Type} (m : List (Nat × α)) (k : Nat) (v : α) : List (Nat × α) :=
  match m with
  | [] => [(k, v)]
  | (k', v') :: rest => if k' = k then (k, v) :: rest else (k', v') :: aset rest k v

/-- Association-list erase (`std::unordered_map::erase`). -/
def aerase {α : Type} (m : List (Nat × α)) (k : Nat) : List (Nat × α) :=
  match m with
  | [] => []
  | (k', v') :: rest => if k' = k then aerase rest k else (k', v') :: aerase rest k

/-- Replace display `d`'s record in the registry. -/
def updateDD (s : HWCState) (d : Nat) (dd : DisplayData) : HWCState :=
  { s with displayData := aset s.displayData d dd }

/-- Trace of calls the embedded operations issue against the device (plus the
one thread-blocking action, `sleepUntil`, which the present step may take). -/
inductive DevCall where
  | presentOrValidate
  | getReleaseFences
  | validate
  | getChangedCompositionTypes
  | getRequests
  | getClientTargetProperty
  | acceptChanges
  | executeCommands
  | present
  | setClientTarget
  | createVirtualDisplay
  | sleepUntil (t : Int)
deriving DecidableEq, Repr

/-- The device's responses for one frame: each field is the outcome the
hardware composing device returns for the correspondingly named call. -/
structure Device where
  presentOrValidateErr : HalError
  presentOrValidateNumTypes : Nat
  presentOrValidateNumRequests : Nat
  presentOrValidateFence : Fence
  presentOrValidateState : Nat
  getReleaseFencesSkipErr : HalError
  getReleaseFencesSkipMap : List (Nat × Fence)
  validateErr : HalError
  getChangedCompositionTypesErr : HalError
  getChangedCompositionTypesVal : List (Nat × Nat)
  getRequestsErr : HalError
  getRequestsDisplay : Nat
  getRequestsLayers : List (Nat × Nat)
  getClientTargetPropertyErr : HalError
  getClientTargetPropertyVal : Nat × Nat
  acceptChangesErr : HalError
  executeCommandsErr : HalError
  presentErr : HalError
  presentFence : Fence
  getReleaseFencesPresentErr : HalError
  getReleaseFencesPresentMap : List (Nat × Fence)
  setClientTargetErr : HalError
  createVirtualDisplayErr : HalError
  createVirtualDisplayId : Nat
deriving Repr

/-- `HWComposer::getLayerReleaseFence`: unknown display or layer yields the
`NO_FENCE` sentinel; otherwise the stored fence. -/
def getLayerReleaseFence (s : HWCState) (displayId : Nat) (layer : Nat) : Fence :=
  match alookup s.displayData displayId with
  | none => Fence.noFence
  | some dd =>
    match alookup dd.releaseFences layer with
    | none => Fence.noFence
    | some f => f

/-- `HWComposer::setClientTarget`: invalid display fails fast; a skipped
validate this frame short-circuits to success with no device call; otherwise
the target is handed to the device. -/
def setClientTarget (dev : Device) (s : HWCState) (displayId : Nat)
    (slot : Nat) (acquireFence : Fence) (target : Nat) (dataspace : Nat) :
    Status × HWCState × List DevCall :=
  match alookup s.displayData displayId with
  | none => (Status.BAD_INDEX, s, [])
  | some dd =>
    if dd.validateWasSkipped then
      (Status.NO_ERROR, s, [])
    else
      if dev.setClientTargetErr = HalError.NONE then
        (Status.NO_ERROR, s, [DevCall.setClientTarget])
      else
        (Status.BAD_VALUE, s, [DevCall.setClientTarget])

/-- `HWComposer::getDeviceCompositionChanges`: the per-frame negotiation.
Returns (status, outChanges, successor state, device-call trace), mirroring
the source line by line: invalid display fails fast; a disconnected display
returns success untouched; the fast present-or-validate path runs
(`canSkipValidate` is the constant `true` in this source), its state code
steering fence capture, the skip flag, early return (state 1), and whether
accept-changes runs after the slow queries (state ≠ 2). -/
def getDeviceCompositionChanges (dev : Device) (s : HWCState) (displayId : Nat) :
    Status × Option DeviceRequestedChanges × HWCState × List DevCall :=
  match alookup s.displayData displayId with
  | none => (Status.BAD_INDEX, none, s, [])
  | some dd =>
    if dd.connected = false then
      (Status.NO_ERROR, none, s, [])
    else
      -- canSkipValidate = true; displayData.validateWasSkipped = false;
      let dd0 := { dd with validateWasSkipped := false }
      let err0 := dev.presentOrValidateErr
      let state := dev.presentOrValidateState
      if ¬ hasChangesError err0 ∧ err0 ≠ HalError.NONE then
        (Status.UNKNOWN_ERROR, none, updateDD s displayId dd0, [DevCall.presentOrValidate])
      else
        -- state 1 or 2: capture fences, mark the validate as skipped
        let dd1 :=
          if state = 1 ∨ state = 2 then
            { dd0 with
                releaseFences := dev.getReleaseFencesSkipMap
                lastPresentFence := dev.presentOrValidateFence
                validateWasSkipped := true
                presentError := dev.getReleaseFencesSkipErr }
          else dd0
        let tr1 :=
          if state = 1 ∨ state = 2 then
            [DevCall.presentOrValidate, DevCall.getReleaseFences]
          else [DevCall.presentOrValidate]
        -- the running hal::Error after the fast path: overwritten by
        -- getReleaseFences when state was 1 or 2
        let err1 :=
          if state = 1 ∨ state = 2 then dev.getReleaseFencesSkipErr else err0
        if state = 1 then
          (Status.NO_ERROR, none, updateDD s displayId dd1, tr1)
        else
          let acceptChangesFlag := ¬ state = 2
          if ¬ hasChangesError err1 ∧ err1 ≠ HalError.NONE then
            (Status.BAD_INDEX, none, updateDD s displayId dd1, tr1)
          else
            if dev.getChangedCompositionTypesErr ≠ HalError.NONE then
              (Status.BAD_INDEX, none, updateDD s displayId dd1,
                tr1 ++ [DevCall.getChangedCompositionTypes])
            else
              if dev.getRequestsErr ≠ HalError.NONE then
                (Status.BAD_INDEX, none, updateDD s displayId dd1,
                  tr1 ++ [DevCall.getChangedCompositionTypes, DevCall.getRequests])
              else
                -- getClientTargetProperty's error is captured but never checked
                let changes : DeviceRequestedChanges :=
                  { changedTypes := dev.getChangedCompositionTypesVal
                    displayRequests := dev.getRequestsDisplay
                    layerRequests := dev.getRequestsLayers
                    clientTargetProperty := dev.getClientTargetPropertyVal }
                let tr2 := tr1 ++ [DevCall.getChangedCompositionTypes,
                  DevCall.getRequests, DevCall.getClientTargetProperty]
                if acceptChangesFlag then
                  if dev.acceptChangesErr ≠ HalError.NONE then
                    (Status.BAD_INDEX, some changes, updateDD s displayId dd1,
                      tr2 ++ [DevCall.acceptChanges])
                  else
                    (Status.NO_ERROR, some changes, updateDD s displayId dd1,
                      tr2 ++ [DevCall.acceptChanges])
                else
                  (Status.NO_ERROR, some changes, updateDD s displayId dd1, tr2)

/-- `HWComposer::presentAndGetReleaseFences`: if validation was skipped this
frame, clear the flag, flush queued commands and surface the captured
skipped-validate error; otherwise reset the stored present fence, sleep until
the earliest present time when the previous frame's fence has signaled, then
present and retrieve the release-fence map.  `prevSignalTime` is
`previousPresentFence->getSignalTime()`. -/
def presentAndGetReleaseFences (dev : Device) (s : HWCState) (displayId : Nat)
    (earliestPresentTime : Int) (prevSignalTime : Int) :
    Status × HWCState × List DevCall :=
  match alookup s.displayData displayId with
  | none => (Status.BAD_INDEX, s, [])
  | some dd =>
    if dd.validateWasSkipped then
      let s1 := updateDD s displayId { dd with validateWasSkipped := false }
      if dev.executeCommandsErr ≠ HalError.NONE then
        (Status.UNKNOWN_ERROR, s1, [DevCall.executeCommands])
      else
        if dd.presentError ≠ HalError.NONE then
          (Status.UNKNOWN_ERROR, s1, [DevCall.executeCommands])
        else
          (Status.NO_ERROR, s1, [DevCall.executeCommands])
    else
      let dd1 := { dd with lastPresentFence := Fence.noFence }
      let previousFramePending := prevSignalTime = SIGNAL_TIME_PENDING
      let tr1 : List DevCall :=
        if previousFramePending then [] else [DevCall.sleepUntil earliestPresentTime]
      if dev.presentErr ≠ HalError.NONE then
        (Status.UNKNOWN_ERROR, updateDD s displayId dd1, tr1 ++ [DevCall.present])
      else
        let dd2 := { dd1 with lastPresentFence := dev.presentFence }
        if dev.getReleaseFencesPresentErr ≠ HalError.NONE then
          (Status.UNKNOWN_ERROR, updateDD s displayId dd2,
            tr1 ++ [DevCall.present, DevCall.getReleaseFences])
        else
          (Status.NO_ERROR,
            updateDD s displayId { dd2 with releaseFences := dev.getReleaseFencesPresentMap },
            tr1 ++ [DevCall.present, DevCall.getReleaseFences])

/-- `HWComposer::toPhysicalDisplayId`: handle → identity translation. -/
def toPhysicalDisplayId (s : HWCState) (hwcDisplayId : Nat) : Option Nat :=
  alookup s.physicalDisplayIdMap hwcDisplayId

/-- `HWComposer::isConnected`. -/
def isConnected (s : HWCState) (displayId : Nat) : Bool :=
  match alookup s.displayData displayId with
  | some dd => dd.connected
  | none => false

/-- `HWComposer::onVsync`: handle resolution, the fatal assertion on virtual
displays (modelled as `none`), duplicate-timestamp filtering, and the
accept path (store the timestamp, flip the trace toggle, report success). -/
def onVsync (s : HWCState) (hwcDisplayId : Nat) (timestamp : Int) :
    Option (Bool × HWCState) :=
  match toPhysicalDisplayId s hwcDisplayId with
  | none => some (false, s)
  | some displayId =>
    match alookup s.displayData displayId with
    | none => some (false, s)
    | some dd =>
      if dd.isVirtual then
        none
      else
        if timestamp = dd.lastHwVsync then
          some (false, s)
        else
          some (true, updateDD s displayId
            { dd with
                lastHwVsync := timestamp
                vsyncTraceToggle := ! dd.vsyncTraceToggle })

/-- `HWComposer::allocatePhysicalDisplay`: register the handle↔identity
mapping, claim the primary (internal) then secondary (external) built-in
slot, and install a freshly connected physical `HWC2::Display` into the
record (other `DisplayData` fields of a pre-existing record are kept, as
`mDisplayData[displayId]` reuses the entry). -/
def allocatePhysicalDisplay (s : HWCState) (hwcDisplayId : Nat) (displayId : Nat) :
    HWCState :=
  let intl :=
    if s.internalHwcDisplayId.isNone then some hwcDisplayId
    else s.internalHwcDisplayId
  let extl :=
    if s.internalHwcDisplayId.isNone then s.externalHwcDisplayId
    else
      if s.internalHwcDisplayId ≠ some hwcDisplayId ∧ s.externalHwcDisplayId.isNone then
        some hwcDisplayId
      else s.externalHwcDisplayId
  let old := (alookup s.displayData displayId).getD defaultDisplayData
  let dd := { old with hwcId := hwcDisplayId, connected := true, isVirtual := false }
  { s with
      physicalDisplayIdMap := aset s.physicalDisplayIdMap hwcDisplayId displayId
      internalHwcDisplayId := intl
      externalHwcDisplayId := extl
      displayData := aset s.displayData displayId dd }

/-- Modelled from the spec: `ui::Size::isValid` (libs/ui, outside the
excerpt) — the resolution is non-degenerate, i.e. both dimensions positive. -/
def sizeIsValid (width height : Int) : Prop := 0 < width ∧ 0 < height

instance (w h : Int) : Decidable (sizeIsValid w h) := by
  unfold sizeIsValid; infer_instance

/-- `HWComposer::allocateVirtualDisplay`: reject a degenerate resolution,
enforce the optional maximum-dimension bound (0 = unbounded), ask the device
to create the display, and on success install a connected virtual record. -/
def allocateVirtualDisplay (dev : Device) (s : HWCState) (displayId : Nat)
    (width height : Int) : Bool × HWCState × List DevCall :=
  if ¬ sizeIsValid width height then
    (false, s, [])
  else
    let w := width.toNat
    let h := height.toNat
    if 0 < s.maxVirtualDisplayDimension ∧
        (s.maxVirtualDisplayDimension < w ∨ s.maxVirtualDisplayDimension < h) then
      (false, s, [])
    else
      if dev.createVirtualDisplayErr ≠ HalError.NONE then
        (false, s, [DevCall.createVirtualDisplay])
      else
        let old := (alookup s.displayData displayId).getD defaultDisplayData
        let dd := { old with
          hwcId := dev.createVirtualDisplayId
          connected := true
          isVirtual := true }
        (true, { s with displayData := aset s.displayData displayId dd },
          [DevCall.createVirtualDisplay])

/-- `HWComposer::disconnectDisplay`: unknown identity is a no-op; otherwise
release the primary/secondary slot held by the record's handle, erase the
handle↔identity mapping, and erase the record. -/
def disconnectDisplay (s : HWCState) (displayId : Nat) : HWCState :=
  match alookup s.displayData displayId with
  | none => s
  | some dd =>
    let hwcDisplayId := dd.hwcId
    let s1 :=
      if s.internalHwcDisplayId = some hwcDisplayId then
        { s with internalHwcDisplayId := none }
      else
        if s.externalHwcDisplayId = some hwcDisplayId then
          { s with externalHwcDisplayId := none }
        else s
    { s1 with
        physicalDisplayIdMap := aerase s1.physicalDisplayIdMap hwcDisplayId
        displayData := aerase s1.displayData displayId }

/-- A hotplug identification result (`DisplayIdentificationInfo`); the
product descriptor is opaque. -/
structure DisplayIdentificationInfo where
  id : Nat
  name : String
  deviceProductInfo : Option Nat
deriving DecidableEq, Repr

/-- `HWComposer::onHotplugDisconnect`: an unknown handle is ignored; a known
one is marked disconnected in place (never destroyed) and its identity is
reported back. -/
def onHotplugDisconnect (s : HWCState) (hwcDisplayId : Nat) :
    Option DisplayIdentificationInfo × HWCState :=
  match toPhysicalDisplayId s hwcDisplayId with
  | none => (none, s)
  | some displayId =>
    let s1 :=
      if isConnected s displayId then
        match alookup s.displayData displayId with
        | some dd => updateDD s displayId { dd with connected := false }
        | none => s
      else s
    (some { id := displayId, name := "", deviceProductInfo := none }, s1)

/-- The port values of the legacy two-slot convention
(`LEGACY_DISPLAY_TYPE_PRIMARY` / `LEGACY_DISPLAY_TYPE_EXTERNAL`). -/
def LEGACY_DISPLAY_TYPE_PRIMARY : Nat := 0

def LEGACY_DISPLAY_TYPE_EXTERNAL : Nat := 1

/-- `PhysicalDisplayId::fromPort`: an injective port-derived identity. -/
def physicalDisplayIdFromPort (port : Nat) : Nat := port

/-- The device-side inputs to one hotplug-connect event: whether
identification data could be read, the reported port, and the (external)
parser's result on that data. -/
structure HotplugInput where
  hasIdentificationData : Bool
  port : Nat
  parsed : Option DisplayIdentificationInfo
deriving Repr

/-- `HWComposer::shouldIgnoreHotplugConnect`: generalized mode ignores
connections lacking identification data; legacy mode ignores a connection
once both built-in slots are occupied. -/
def shouldIgnoreHotplugConnect (s : HWCState) (hasDisplayIdentificationData : Bool) :
    Bool :=
  if s.hasMultiDisplaySupport ∧ hasDisplayIdentificationData = false then
    true
  else
    if s.hasMultiDisplaySupport = false ∧ s.internalHwcDisplayId.isSome ∧
        s.externalHwcDisplayId.isSome then
      true
    else false

/-- `HWComposer::onHotplugConnect`: a mapped handle is a reconnect (reuse the
identity, optionally refreshing the product descriptor); an unmapped handle
first selects the addressing mode when the handle map is empty, applies the
ignore policy, then derives the identity from parsed data (generalized) or
the legacy port convention, finally allocating the record when the identity
is not already connected. -/
def onHotplugConnect (s : HWCState) (hwcDisplayId : Nat) (input : HotplugInput) :
    Option DisplayIdentificationInfo × HWCState :=
  match toPhysicalDisplayId s hwcDisplayId with
  | some displayId =>
    let base : DisplayIdentificationInfo :=
      { id := displayId, name := "", deviceProductInfo := none }
    let info :=
      if s.updateDeviceProductInfoOnHotplugReconnect then
        match input.parsed with
        | some newInfo => { base with deviceProductInfo := newInfo.deviceProductInfo }
        | none => base
      else base
    if isConnected s info.id then
      (some info, s)
    else
      (some info, allocatePhysicalDisplay s hwcDisplayId info.id)
  | none =>
    let s1 :=
      if s.physicalDisplayIdMap = [] then
        { s with hasMultiDisplaySupport := input.hasIdentificationData }
      else s
    if shouldIgnoreHotplugConnect s1 input.hasIdentificationData then
      (none, s1)
    else
      let isPrimary := s1.internalHwcDisplayId.isNone
      let info :=
        if s1.hasMultiDisplaySupport then
          match input.parsed with
          | some i => i
          | none =>
            { id := physicalDisplayIdFromPort input.port
              name := if isPrimary then "Internal display" else "External display"
              deviceProductInfo := none }
        else
          { id := physicalDisplayIdFromPort
              (if isPrimary then LEGACY_DISPLAY_TYPE_PRIMARY else LEGACY_DISPLAY_TYPE_EXTERNAL)
            name := if isPrimary then "Internal display" else "External display"
            deviceProductInfo := none }
      if isConnected s1 info.id then
        (some info, s1)
      else
        (some info, allocatePhysicalDisplay s1 hwcDisplayId info.id)

/-! Concrete fixtures used by the witness and counterexample theorems. -/

/-- A connected physical display record with a tracked release fence for
layer 3 and last-seen vsync timestamp 5. -/
def exDD : DisplayData :=
  { hwcId := 7
    connected := true
    isVirtual := false
    lastHwVsync := 5
    vsyncTraceToggle := false
    lastPresentFence := Fence.noFence
    releaseFences := [(3, Fence.mk 11)]
    validateWasSkipped := false
    presentError := HalError.NONE }

/-- `exDD` with the validate-was-skipped flag raised. -/
def exDDSkip : DisplayData := { exDD with validateWasSkipped := true }

/-- A registry holding display 4 (handle 7) in the primary slot. -/
def exState : HWCState :=
  { displayData := [(4, exDD)]
    physicalDisplayIdMap := [(7, 4)]
    internalHwcDisplayId := some 7
    externalHwcDisplayId := none
    hasMultiDisplaySupport := false
    maxVirtualDisplayDimension := 1024
    updateDeviceProductInfoOnHotplugReconnect := false }

/-- `exState` with the skip flag raised on display 4. -/
def exStateSkip : HWCState := { exState with displayData := [(4, exDDSkip)] }

/-- A device that answers every call successfully, with the fast path
reporting validate-only (state 0). -/
def devNone : Device :=
  { presentOrValidateErr := HalError.NONE
    presentOrValidateNumTypes := 0
    presentOrValidateNumRequests := 0
    presentOrValidateFence := Fence.mk 21
    presentOrValidateState := 0
    getReleaseFencesSkipErr := HalError.NONE
    getReleaseFencesSkipMap := [(3, Fence.mk 22)]
    validateErr := HalError.NONE
    getChangedCompositionTypesErr := HalError.NONE
    getChangedCompositionTypesVal := [(3, 1)]
    getRequestsErr := HalError.NONE
    getRequestsDisplay := 0
    getRequestsLayers := []
    getClientTargetPropertyErr := HalError.NONE
    getClientTargetPropertyVal := (1, 2)
    acceptChangesErr := HalError.NONE
    executeCommandsErr := HalError.NONE
    presentErr := HalError.NONE
    presentFence := Fence.mk 23
    getReleaseFencesPresentErr := HalError.NONE
    getReleaseFencesPresentMap := [(3, Fence.mk 24)]
    setClientTargetErr := HalError.NONE
    createVirtualDisplayErr := HalError.NONE
    createVirtualDisplayId := 9 }

/-- `devNone` with the fast path reporting committed-no-changes (state 1). -/
def devState1 : Device := { devNone with presentOrValidateState := 1 }

/-- `devNone` with the fast path reporting committed-with-changes (state 2). -/
def devState2 : Device := { devNone with presentOrValidateState := 2 }

/-- A first hotplug-connect event carrying no identification data. -/
def hpNoData : HotplugInput :=
  { hasIdentificationData := false, port := 5, parsed := none }

/-- A hotplug-connect event carrying parseable identification data. -/
def hpWithData : HotplugInput :=
  { hasIdentificationData := true
    port := 6
    parsed := some { id := 42, name := "DP", deviceProductInfo := some 9 } }

/-- The pristine process state: no displays ever seen. -/
def s0 : HWCState :=
  { displayData := []
    physicalDisplayIdMap := []
    internalHwcDisplayId := none
    externalHwcDisplayId := none
    hasMultiDisplaySupport := false
    maxVirtualDisplayDimension := 0
    updateDeviceProductInfoOnHotplugReconnect := false }

/-- State after the first-ever connection, which carries no identification
data (selects legacy mode). -/
def s1 : HWCState := (onHotplugConnect s0 1 hpNoData).2

/-- State after the sole legacy display is disconnect-and-destroyed. -/
def s2 : HWCState :=
  disconnectDisplay s1 (physicalDisplayIdFromPort LEGACY_DISPLAY_TYPE_PRIMARY)

/-- State after a subsequent connection that carries identification data. -/
def s3 : HWCState := (onHotplugConnect s2 2 hpWithData).2

/-- `exState` with display 4's last-seen vsync timestamp reset to 0, the
value a freshly allocated record starts from. -/
def exStateVs : HWCState := updateDD exState 4 { exDD with lastHwVsync := 0 }

/-- The state after `onVsync` accepts timestamp 5 on `exStateVs`. -/
def exStateVs5 : HWCState := ((onVsync exStateVs 7 5).getD (false, exStateVs)).2

/-! Association-list lemmas. -/

theorem alookup_aset_self {α : Type} (m : List (Nat × α)) (k : Nat) (v : α) :
    alookup (aset m k v) k = some v := by
  induction m with
  | nil => simp [aset, alookup]
  | cons p rest ih =>
    obtain ⟨k', v'⟩ := p
    by_cases h : k' = k <;> simp [aset, alookup, h, ih]

theorem alookup_aset_ne {α : Type} (m : List (Nat × α)) (k k' : Nat) (v : α)
    (h : k' ≠ k) : alookup (aset m k v) k' = alookup m k' := by
  induction m with
  | nil =>
    simp only [aset, alookup]
    rw [if_neg]
    intro hh
    exact h hh.symm
  | cons p rest ih =>
    obtain ⟨k₀, v₀⟩ := p
    by_cases h₀ : k₀ = k
    · subst h₀
      simp only [aset, if_pos rfl, alookup]
      rw [if_neg, if_neg]
      · intro hh
        exact h hh.symm
      · intro hh
        exact h hh.symm
    · simp only [aset, if_neg h₀, alookup]
      by_cases h₁ : k₀ = k'
      · simp [h₁]
      · simp [h₁, ih]

theorem alookup_aerase_self {α : Type} (m : List (Nat × α)) (k : Nat) :
    alookup (aerase m k) k = none := by
  induction m with
  | nil => simp [aerase, alookup]
  | cons p rest ih =>
    obtain ⟨k', v'⟩ := p
    by_cases h : k' = k <;> simp [aerase, alookup, h, ih]

/-! Claim theorems. -/

/-- C7: for every registered display and layer handle,
`getLayerReleaseFence` returns the `NO_FENCE` no-wait sentinel — never an
error — when the layer has no entry in the display's release-fence map, and
returns the stored fence exactly for layers present in the map. -/
theorem getLayerReleaseFence_no_wait_sentinel (s : HWCState) (d : Nat)
    (dd : DisplayData) (layer : Nat)
    (hdd : alookup s.displayData d = some dd) :
    (alookup dd.releaseFences layer = none →
      getLayerReleaseFence s d layer = Fence.noFence)
    ∧ (∀ f, alookup dd.releaseFences layer = some f →
        getLayerReleaseFence s d layer = f) := by
  constructor
  · intro h
    simp [getLayerReleaseFence, hdd, h]
  · intro f h
    simp [getLayerReleaseFence, hdd, h]

theorem getLayerReleaseFence_no_wait_sentinel_witness :
    alookup exState.displayData 4 = some exDD
    ∧ getLayerReleaseFence exState 4 99 = Fence.noFence
    ∧ getLayerReleaseFence exState 4 3 = Fence.mk 11 :=
  ⟨by decide,
    (getLayerReleaseFence_no_wait_sentinel exState 4 exDD 99 (by decide)).1 (by decide),
    (getLayerReleaseFence_no_wait_sentinel exState 4 exDD 3 (by decide)).2
      (Fence.mk 11) (by decide)⟩

/-- C9: for every registered display with the validate-was-skipped flag set,
`setClientTarget` returns `NO_ERROR` immediately, makes no device call and
leaves the state untouched, discarding the buffer, fence and dataspace
arguments. -/
theorem setClientTarget_skipped_discards (dev : Device) (s : HWCState)
    (d : Nat) (dd : DisplayData) (slot : Nat) (fence : Fence)
    (target dataspace : Nat)
    (hdd : alookup s.displayData d = some dd)
    (hskip : dd.validateWasSkipped = true) :
    setClientTarget dev s d slot fence target dataspace
      = (Status.NO_ERROR, s, []) := by
  simp [setClientTarget, hdd, hskip]

theorem setClientTarget_skipped_discards_witness :
    exDDSkip.validateWasSkipped = true
    ∧ setClientTarget devNone exStateSkip 4 0 (Fence.mk 1) 2 3
        = (Status.NO_ERROR, exStateSkip, []) :=
  ⟨by decide,
    setClientTarget_skipped_discards devNone exStateSkip 4 exDDSkip 0
      (Fence.mk 1) 2 3 (by decide) (by decide)⟩

/-- C10: for every registered display whose record is not connected,
`getDeviceCompositionChanges` returns `NO_ERROR` immediately, makes no
device call, populates no changes and leaves the stored state untouched. -/
theorem getDeviceCompositionChanges_disconnected_noop (dev : Device)
    (s : HWCState) (d : Nat) (dd : DisplayData)
    (hdd : alookup s.displayData d = some dd)
    (hc : dd.connected = false) :
    getDeviceCompositionChanges dev s d = (Status.NO_ERROR, none, s, []) := by
  simp [getDeviceCompositionChanges, hdd, hc]

theorem getDeviceCompositionChanges_disconnected_noop_witness :
    ({ exDD with connected := false } : DisplayData).connected = false
    ∧ getDeviceCompositionChanges devNone
        { exState with displayData := [(4, { exDD with connected := false })] } 4
      = (Status.NO_ERROR, none,
          { exState with displayData := [(4, { exDD with connected := false })] }, []) :=
  ⟨by decide,
    getDeviceCompositionChanges_disconnected_noop devNone
      { exState with displayData := [(4, { exDD with connected := false })] } 4
      { exDD with connected := false } (by decide) (by decide)⟩

/-- C2: `lookup` after `disconnectDisplay` (disconnect-and-destroy) reports
the identity unknown — both the record and the handle mapping are erased —
whereas after a bare `onHotplugDisconnect` the lookup still succeeds, the
result identifies the display, and the record merely has its connected flag
cleared. -/
theorem disconnect_and_destroy_vs_bare_disconnect (s : HWCState)
    (d hwc : Nat) (dd : DisplayData)
    (hdd : alookup s.displayData d = some dd)
    (hmap : alookup s.physicalDisplayIdMap hwc = some d) :
    alookup (disconnectDisplay s d).displayData d = none
    ∧ alookup (disconnectDisplay s d).physicalDisplayIdMap dd.hwcId = none
    ∧ (onHotplugDisconnect s hwc).1
        = some { id := d, name := "", deviceProductInfo := none }
    ∧ alookup (onHotplugDisconnect s hwc).2.displayData d
        = some { dd with connected := false } := by
  refine ⟨?_, ?_, ?_, ?_⟩
  · simp only [disconnectDisplay, hdd]
    split <;> simp [alookup_aerase_self]
  · simp only [disconnectDisplay, hdd]
    split <;> simp [alookup_aerase_self]
  · simp [onHotplugDisconnect, toPhysicalDisplayId, hmap]
  · by_cases hc : dd.connected
    · simp [onHotplugDisconnect, toPhysicalDisplayId, hmap, isConnected, hdd, hc,
        updateDD, alookup_aset_self]
    · have hdd' : ({ dd with connected := false } : DisplayData) = dd := by
        cases dd
        simp_all
      simp [onHotplugDisconnect, toPhysicalDisplayId, hmap, isConnected, hdd, hc, hdd']

theorem disconnect_and_destroy_vs_bare_disconnect_witness :
    alookup exState.displayData 4 = some exDD
    ∧ alookup (disconnectDisplay exState 4).displayData 4 = none
    ∧ alookup (onHotplugDisconnect exState 7).2.displayData 4
        = some { exDD with connected := false } :=
  ⟨by decide,
    (disconnect_and_destroy_vs_bare_disconnect exState 4 7 exDD
      (by decide) (by decide)).1,
    (disconnect_and_destroy_vs_bare_disconnect exState 4 7 exDD
      (by decide) (by decide)).2.2.2⟩

/-- C4 counterexample: the claim says accepted vsync timestamps strictly
increase, but `onVsync` only filters exact duplicates.  Starting from a
fresh record, timestamp 5 is accepted and then the smaller timestamp 3 is
accepted as well, so the accepted sequence 5, 3 is not strictly
increasing. -/
theorem onVsync_accepts_decreasing_timestamp :
    (onVsync exStateVs 7 5).map Prod.fst = some true
    ∧ (onVsync exStateVs5 7 3).map Prod.fst = some true
    ∧ ¬ (5 : Int) < 3 := by
  refine ⟨by decide, by decide, by decide⟩

/-- C4 (amended): per physical display, `onVsync` never accepts two equal
consecutive timestamps — a timestamp equal to the last-seen value is
reported as failure with no state update and no trace toggle, so two
consecutive identical timestamps yield exactly one forwarded event — and
any non-duplicate timestamp (not necessarily larger) is accepted: it
updates the stored value, flips the trace toggle, and reports success. -/
theorem onVsync_duplicate_filter (s : HWCState) (hwc d : Nat)
    (dd : DisplayData) (ts : Int)
    (hmap : alookup s.physicalDisplayIdMap hwc = some d)
    (hdd : alookup s.displayData d = some dd)
    (hv : dd.isVirtual = false) :
    (ts = dd.lastHwVsync → onVsync s hwc ts = some (false, s))
    ∧ (ts ≠ dd.lastHwVsync →
        onVsync s hwc ts = some (true, updateDD s d
          { dd with
              lastHwVsync := ts
              vsyncTraceToggle := ! dd.vsyncTraceToggle })) := by
  constructor
  · intro h
    simp [onVsync, toPhysicalDisplayId, hmap, hdd, hv, h]
  · intro h
    simp [onVsync, toPhysicalDisplayId, hmap, hdd, hv, h]

theorem onVsync_duplicate_filter_witness :
    alookup exState.physicalDisplayIdMap 7 = some 4
    ∧ onVsync exState 7 5 = some (false, exState)
    ∧ onVsync exState 7 6 = some (true, updateDD exState 4
        { exDD with lastHwVsync := 6, vsyncTraceToggle := true }) :=
  ⟨by decide,
    (onVsync_duplicate_filter exState 7 4 exDD 5 (by decide) (by decide)
      (by decide)).1 (by decide),
    (onVsync_duplicate_filter exState 7 4 exDD 6 (by decide) (by decide)
      (by decide)).2 (by decide)⟩

/-- Helper: whenever the skip flag is set, the present step only flushes
queued commands — its device-call trace is exactly `[executeCommands]`,
whatever the device answers. -/
theorem presentAndGetReleaseFences_skipped_trace (dev : Device) (s : HWCState)
    (d : Nat) (dd : DisplayData) (t sig : Int)
    (hdd : alookup s.displayData d = some dd)
    (hskip : dd.validateWasSkipped = true) :
    (presentAndGetReleaseFences dev s d t sig).2.2 = [DevCall.executeCommands] := by
  by_cases h1 : dev.executeCommandsErr = HalError.NONE <;>
    by_cases h2 : dd.presentError = HalError.NONE <;>
      simp [presentAndGetReleaseFences, hdd, hskip, h1, h2]

/-- Helper: on the fast path with state 1 (committed-no-changes) and a
non-fatal present-or-validate error, `getDeviceCompositionChanges` reduces
to success with no changes, the captured fences, and the skip flag set. -/
theorem getDeviceCompositionChanges_state1_eq (dev : Device) (s : HWCState)
    (d : Nat) (dd : DisplayData)
    (hdd : alookup s.displayData d = some dd)
    (hc : dd.connected = true)
    (hstate : dev.presentOrValidateState = 1)
    (herr : dev.presentOrValidateErr = HalError.NONE
      ∨ hasChangesError dev.presentOrValidateErr) :
    getDeviceCompositionChanges dev s d
      = (Status.NO_ERROR, none,
          updateDD s d
            { dd with
                releaseFences := dev.getReleaseFencesSkipMap
                lastPresentFence := dev.presentOrValidateFence
                validateWasSkipped := true
                presentError := dev.getReleaseFencesSkipErr },
          [DevCall.presentOrValidate, DevCall.getReleaseFences]) := by
  rcases herr with h | h
  · simp [getDeviceCompositionChanges, hdd, hc, hstate, h, hasChangesError]
  · unfold hasChangesError at h
    simp [getDeviceCompositionChanges, hdd, hc, hstate, h, hasChangesError]

/-- C1: when the fast composition path reports committed-no-changes
(state 1), `getDeviceCompositionChanges` returns `NO_ERROR` without
populating the changes result, and the subsequent
`presentAndGetReleaseFences` call for that frame issues no device present
call — its only device call is the flush of queued commands. -/
theorem fast_path_committed_no_changes (dev dev2 : Device) (s : HWCState)
    (d : Nat) (dd : DisplayData) (t sig : Int)
    (hdd : alookup s.displayData d = some dd)
    (hc : dd.connected = true)
    (hstate : dev.presentOrValidateState = 1)
    (herr : dev.presentOrValidateErr = HalError.NONE
      ∨ hasChangesError dev.presentOrValidateErr) :
    (getDeviceCompositionChanges dev s d).1 = Status.NO_ERROR
    ∧ (getDeviceCompositionChanges dev s d).2.1 = none
    ∧ (presentAndGetReleaseFences dev2
        (getDeviceCompositionChanges dev s d).2.2.1 d t sig).2.2
        = [DevCall.executeCommands]
    ∧ DevCall.present ∉ (presentAndGetReleaseFences dev2
        (getDeviceCompositionChanges dev s d).2.2.1 d t sig).2.2 := by
  have hg := getDeviceCompositionChanges_state1_eq dev s d dd hdd hc hstate herr
  have htr : (presentAndGetReleaseFences dev2
      (getDeviceCompositionChanges dev s d).2.2.1 d t sig).2.2
      = [DevCall.executeCommands] := by
    rw [hg]
    exact presentAndGetReleaseFences_skipped_trace dev2
      (updateDD s d
        { dd with
            releaseFences := dev.getReleaseFencesSkipMap
            lastPresentFence := dev.presentOrValidateFence
            validateWasSkipped := true
            presentError := dev.getReleaseFencesSkipErr })
      d
      { dd with
          releaseFences := dev.getReleaseFencesSkipMap
          lastPresentFence := dev.presentOrValidateFence
          validateWasSkipped := true
          presentError := dev.getReleaseFencesSkipErr }
      t sig (by simp [updateDD, alookup_aset_self]) rfl
  refine ⟨by rw [hg], by rw [hg], htr, ?_⟩
  rw [htr]
  simp

theorem fast_path_committed_no_changes_witness :
    devState1.presentOrValidateState = 1
    ∧ (getDeviceCompositionChanges devState1 exState 4).1 = Status.NO_ERROR
    ∧ (getDeviceCompositionChanges devState1 exState 4).2.1 = none
    ∧ (presentAndGetReleaseFences devNone
        (getDeviceCompositionChanges devState1 exState 4).2.2.1 4 100 0).2.2
        = [DevCall.executeCommands] :=
  ⟨by decide,
    (fast_path_committed_no_changes devState1 devNone exState 4 exDD 100 0
      (by decide) (by decide) (by decide) (Or.inl (by decide))).1,
    (fast_path_committed_no_changes devState1 devNone exState 4 exDD 100 0
      (by decide) (by decide) (by decide) (Or.inl (by decide))).2.1,
    (fast_path_committed_no_changes devState1 devNone exState 4 exDD 100 0
      (by decide) (by decide) (by decide) (Or.inl (by decide))).2.2.1⟩

/-- C8: in the present step with validation not skipped this frame, the
stored present fence is first reset to the unset sentinel (observable
whenever the device's present fails); the calling thread sleeps until the
caller-supplied earliest present time exactly when the previous frame's
present fence has already signaled (the sleep precedes the present call);
if the previous frame is still pending, present is issued with no sleep;
and after a successful present the retrieved release-fence map overwrites
the stored one. -/
theorem present_step_pacing_and_fences (dev : Device) (s : HWCState)
    (d : Nat) (dd : DisplayData) (t sig : Int)
    (hdd : alookup s.displayData d = some dd)
    (hskip : dd.validateWasSkipped = false) :
    (DevCall.sleepUntil t ∈ (presentAndGetReleaseFences dev s d t sig).2.2
      ↔ sig ≠ SIGNAL_TIME_PENDING)
    ∧ DevCall.present ∈ (presentAndGetReleaseFences dev s d t sig).2.2
    ∧ (sig ≠ SIGNAL_TIME_PENDING →
        (presentAndGetReleaseFences dev s d t sig).2.2.head?
          = some (DevCall.sleepUntil t))
    ∧ (dev.presentErr ≠ HalError.NONE →
        alookup (presentAndGetReleaseFences dev s d t sig).2.1.displayData d
          = some { dd with lastPresentFence := Fence.noFence })
    ∧ (dev.presentErr = HalError.NONE →
        dev.getReleaseFencesPresentErr = HalError.NONE →
        (presentAndGetReleaseFences dev s d t sig).1 = Status.NO_ERROR
        ∧ alookup (presentAndGetReleaseFences dev s d t sig).2.1.displayData d
            = some { dd with
                lastPresentFence := dev.presentFence
                releaseFences := dev.getReleaseFencesPresentMap }) := by
  by_cases hp : sig = SIGNAL_TIME_PENDING <;>
    by_cases h1 : dev.presentErr = HalError.NONE <;>
      by_cases h2 : dev.getReleaseFencesPresentErr = HalError.NONE <;>
        simp [presentAndGetReleaseFences, hdd, hskip, hp, h1, h2,
          updateDD, alookup_aset_self]

theorem present_step_pacing_and_fences_witness :
    exDD.validateWasSkipped = false
    ∧ DevCall.present ∈ (presentAndGetReleaseFences devNone exState 4 100 0).2.2
    ∧ (presentAndGetReleaseFences devNone exState 4 100 0).2.2.head?
        = some (DevCall.sleepUntil 100) :=
  ⟨by decide,
    (present_step_pacing_and_fences devNone exState 4 exDD 100 0
      (by decide) (by decide)).2.1,
    (present_step_pacing_and_fences devNone exState 4 exDD 100 0
      (by decide) (by decide)).2.2.1 (by decide)⟩

/-- Helper: in any single `getDeviceCompositionChanges` call, whatever the
device answers, accept-changes appears at most once in the device-call
trace. -/
theorem acceptChanges_at_most_once (dev : Device) (s : HWCState) (d : Nat) :
    (getDeviceCompositionChanges dev s d).2.2.2.count DevCall.acceptChanges ≤ 1 := by
  cases hL : alookup s.displayData d with
  | none => simp [getDeviceCompositionChanges, hL]
  | some dd =>
    by_cases hcn : dd.connected = false
    · simp [getDeviceCompositionChanges, hL, hcn]
    · by_cases he0 : ¬ hasChangesError dev.presentOrValidateErr ∧
          dev.presentOrValidateErr ≠ HalError.NONE
      · simp [getDeviceCompositionChanges, hL, hcn, he0]
      · by_cases hs1 : dev.presentOrValidateState = 1
        · simp [getDeviceCompositionChanges, hL, hcn, he0, hs1]
        · by_cases hs2 : dev.presentOrValidateState = 2
          · by_cases hf : ¬ hasChangesError dev.getReleaseFencesSkipErr ∧
                dev.getReleaseFencesSkipErr ≠ HalError.NONE
            · simp [getDeviceCompositionChanges, hL, hcn, he0, hs1, hs2, hf]
            · by_cases hq1 : dev.getChangedCompositionTypesErr ≠ HalError.NONE
              · simp [getDeviceCompositionChanges, hL, hcn, he0, hs1, hs2, hf, hq1]
              · by_cases hq2 : dev.getRequestsErr ≠ HalError.NONE <;>
                  simp [getDeviceCompositionChanges, hL, hcn, he0, hs1, hs2, hf,
                    hq1, hq2]
          · by_cases hq1 : dev.getChangedCompositionTypesErr ≠ HalError.NONE
            · simp [getDeviceCompositionChanges, hL, hcn, he0, hs1, hs2, hq1]
            · by_cases hq2 : dev.getRequestsErr ≠ HalError.NONE
              · simp [getDeviceCompositionChanges, hL, hcn, he0, hs1, hs2, hq1, hq2]
              · by_cases ha : dev.acceptChangesErr ≠ HalError.NONE <;>
                  simp [getDeviceCompositionChanges, hL, hcn, he0, hs1, hs2,
                    hq1, hq2, ha]

/-- C6: in a `getDeviceCompositionChanges` call reaching the slow
validate/query path (fast-path state not committed-no-changes, queries
succeeding), accept-changes is called exactly when the fast path did not
already commit with changes (state ≠ 2), it is never called twice in any
call whatsoever, and when state was 2 the queried changes result is still
produced without being re-applied. -/
theorem slow_path_accept_changes_once (dev : Device) (s : HWCState) (d : Nat)
    (dd : DisplayData)
    (hdd : alookup s.displayData d = some dd)
    (hc : dd.connected = true)
    (hstate : dev.presentOrValidateState ≠ 1)
    (hpov : dev.presentOrValidateErr = HalError.NONE
      ∨ hasChangesError dev.presentOrValidateErr)
    (hrf : dev.presentOrValidateState = 2 →
      dev.getReleaseFencesSkipErr = HalError.NONE
      ∨ hasChangesError dev.getReleaseFencesSkipErr)
    (hq1 : dev.getChangedCompositionTypesErr = HalError.NONE)
    (hq2 : dev.getRequestsErr = HalError.NONE) :
    ((getDeviceCompositionChanges dev s d).2.2.2.count DevCall.acceptChanges
        = if dev.presentOrValidateState = 2 then 0 else 1)
    ∧ (getDeviceCompositionChanges dev s d).2.1
        = some { changedTypes := dev.getChangedCompositionTypesVal
                 displayRequests := dev.getRequestsDisplay
                 layerRequests := dev.getRequestsLayers
                 clientTargetProperty := dev.getClientTargetPropertyVal }
    ∧ (∀ (dev' : Device) (s' : HWCState) (d' : Nat),
        (getDeviceCompositionChanges dev' s' d').2.2.2.count DevCall.acceptChanges ≤ 1) := by
  unfold hasChangesError at hpov hrf
  refine ⟨?_, ?_, fun dev' s' d' => acceptChanges_at_most_once dev' s' d'⟩
  · by_cases h2 : dev.presentOrValidateState = 2
    · rcases hrf h2 with hf | hf <;> rcases hpov with h | h <;>
        simp [getDeviceCompositionChanges, hdd, hc, hstate, h2, h, hf,
          hasChangesError, hq1, hq2]
    · by_cases ha : dev.acceptChangesErr = HalError.NONE <;>
        rcases hpov with h | h <;>
          simp [getDeviceCompositionChanges, hdd, hc, hstate, h2, h, ha,
            hasChangesError, hq1, hq2]
  · by_cases h2 : dev.presentOrValidateState = 2
    · rcases hrf h2 with hf | hf <;> rcases hpov with h | h <;>
        simp [getDeviceCompositionChanges, hdd, hc, hstate, h2, h, hf,
          hasChangesError, hq1, hq2]
    · by_cases ha : dev.acceptChangesErr = HalError.NONE <;>
        rcases hpov with h | h <;>
          simp [getDeviceCompositionChanges, hdd, hc, hstate, h2, h, ha,
            hasChangesError, hq1, hq2]

theorem slow_path_accept_changes_once_witness :
    devState2.presentOrValidateState = 2
    ∧ (getDeviceCompositionChanges devState2 exState 4).2.2.2.count
        DevCall.acceptChanges = 0
    ∧ (getDeviceCompositionChanges devNone exState 4).2.2.2.count
        DevCall.acceptChanges = 1 := by
  refine ⟨by decide, ?_, ?_⟩
  · have h := (slow_path_accept_changes_once devState2 exState 4 exDD (by decide)
      (by decide) (by decide) (Or.inl (by decide))
      (fun _ => Or.inl (by decide)) (by decide) (by decide)).1
    simpa using h
  · have h := (slow_path_accept_changes_once devNone exState 4 exDD (by decide)
      (by decide) (by decide) (Or.inl (by decide))
      (fun _ => Or.inl (by decide)) (by decide) (by decide)).1
    simpa using h

/-- C5: `allocateVirtualDisplay` fails, creating no record and mutating
nothing, when the resolution is degenerate, or when a positive
maximum-dimension bound is exceeded by either dimension (a bound of 0 is
unbounded), or when the device refuses creation; on success it installs a
virtual record that is connected. -/
theorem allocateVirtualDisplay_validation (dev : Device) (s : HWCState)
    (d : Nat) (w h : Int) :
    (¬ sizeIsValid w h → allocateVirtualDisplay dev s d w h = (false, s, []))
    ∧ (sizeIsValid w h →
        0 < s.maxVirtualDisplayDimension →
        (s.maxVirtualDisplayDimension < w.toNat
          ∨ s.maxVirtualDisplayDimension < h.toNat) →
        allocateVirtualDisplay dev s d w h = (false, s, []))
    ∧ (sizeIsValid w h →
        ¬ (0 < s.maxVirtualDisplayDimension ∧
            (s.maxVirtualDisplayDimension < w.toNat
              ∨ s.maxVirtualDisplayDimension < h.toNat)) →
        dev.createVirtualDisplayErr ≠ HalError.NONE →
        allocateVirtualDisplay dev s d w h
          = (false, s, [DevCall.createVirtualDisplay]))
    ∧ (sizeIsValid w h →
        ¬ (0 < s.maxVirtualDisplayDimension ∧
            (s.maxVirtualDisplayDimension < w.toNat
              ∨ s.maxVirtualDisplayDimension < h.toNat)) →
        dev.createVirtualDisplayErr = HalError.NONE →
        (allocateVirtualDisplay dev s d w h).1 = true
        ∧ alookup (allocateVirtualDisplay dev s d w h).2.1.displayData d
            = some { (alookup s.displayData d).getD defaultDisplayData with
                hwcId := dev.createVirtualDisplayId
                connected := true
                isVirtual := true }) := by
  refine ⟨?_, ?_, ?_, ?_⟩
  · intro hv
    simp [allocateVirtualDisplay, hv]
  · intro hv hb hd
    simp only [allocateVirtualDisplay]
    rw [if_neg (not_not_intro hv), if_pos ⟨hb, hd⟩]
  · intro hv hb he
    simp only [allocateVirtualDisplay]
    rw [if_neg (not_not_intro hv), if_neg hb, if_pos he]
  · intro hv hb he
    constructor
    · simp only [allocateVirtualDisplay]
      rw [if_neg (not_not_intro hv), if_neg hb, if_neg (fun hh => hh he)]
    · simp only [allocateVirtualDisplay]
      rw [if_neg (not_not_intro hv), if_neg hb, if_neg (fun hh => hh he)]
      simp [alookup_aset_self]

theorem allocateVirtualDisplay_validation_witness :
    exState.maxVirtualDisplayDimension = 1024
    ∧ allocateVirtualDisplay devNone exState 8 2000 100 = (false, exState, [])
    ∧ (allocateVirtualDisplay devNone exState 8 100 100).1 = true := by
  refine ⟨by decide, ?_, ?_⟩
  · exact (allocateVirtualDisplay_validation devNone exState 8 2000 100).2.1
      (by decide) (by decide) (by decide)
  · exact ((allocateVirtualDisplay_validation devNone exState 8 100 100).2.2.2
      (by decide) (by decide) (by decide)).1

/-- C3 counterexample: the first-ever connection (no identification data)
selects legacy mode, but the selection is not permanent: after the sole
legacy display is disconnect-and-destroyed (emptying the handle map), a
later connection carrying identification data switches the resolver to
generalized mode within the same process. -/
theorem addressing_mode_not_permanent :
    s1.hasMultiDisplaySupport = false
    ∧ alookup s1.physicalDisplayIdMap 1
        = some (physicalDisplayIdFromPort LEGACY_DISPLAY_TYPE_PRIMARY)
    ∧ s2.physicalDisplayIdMap = []
    ∧ s3.hasMultiDisplaySupport = true := by
  refine ⟨by decide, by decide, by decide, by decide⟩

/-- C3 (amended): a hotplug connection re-selects the addressing mode
(generalized when identification data is present, legacy when absent)
exactly when it arrives while the physical handle map is empty — so the
first connection ever selects it, and whatever the current mode, it can
change later only after every physical handle mapping has been destroyed;
while any handle remains mapped the mode is unchanged.  In legacy mode, a
third or later physical connection (primary and secondary handles both
tracked) is ignored: no identity is produced and the state is not mutated
at all. -/
theorem addressing_mode_selection (s : HWCState) (hwc : Nat)
    (inp : HotplugInput) :
    (s.physicalDisplayIdMap ≠ [] →
      (onHotplugConnect s hwc inp).2.hasMultiDisplaySupport
        = s.hasMultiDisplaySupport)
    ∧ (s.physicalDisplayIdMap = [] →
        (onHotplugConnect s hwc inp).2.hasMultiDisplaySupport
          = inp.hasIdentificationData)
    ∧ (s.hasMultiDisplaySupport = false →
        alookup s.physicalDisplayIdMap hwc = none →
        s.internalHwcDisplayId.isSome = true →
        s.externalHwcDisplayId.isSome = true →
        (s.physicalDisplayIdMap ≠ [] ∨ inp.hasIdentificationData = false) →
        onHotplugConnect s hwc inp = (none, s)) := by
  refine ⟨?_, ?_, ?_⟩
  · intro hne
    cases hm : alookup s.physicalDisplayIdMap hwc with
    | some d0 =>
      simp only [onHotplugConnect, toPhysicalDisplayId, hm]
      repeat' split
      all_goals rfl
    | none =>
      simp only [onHotplugConnect, toPhysicalDisplayId, hm, if_neg hne]
      repeat' split
      all_goals rfl
  · intro hemp
    have hm : alookup s.physicalDisplayIdMap hwc = none := by
      rw [hemp]
      rfl
    simp only [onHotplugConnect, toPhysicalDisplayId, hm, if_pos hemp]
    repeat' split
    all_goals rfl
  · intro hmode hm hi he hcase
    rcases hcase with hne | hnd
    · have hsi : shouldIgnoreHotplugConnect s inp.hasIdentificationData = true := by
        simp [shouldIgnoreHotplugConnect, hmode, hi, he]
      simp only [onHotplugConnect, toPhysicalDisplayId, hm, if_neg hne]
      rw [if_pos hsi]
    · by_cases hemp : s.physicalDisplayIdMap = []
      · have hs1 : ({ s with hasMultiDisplaySupport := false } : HWCState) = s := by
          rw [← hmode]
        have hsi : shouldIgnoreHotplugConnect s false = true := by
          simp [shouldIgnoreHotplugConnect, hmode, hi, he]
        simp only [onHotplugConnect, toPhysicalDisplayId, hm, hnd, if_pos hemp]
        rw [hs1, if_pos hsi]
      · have hsi : shouldIgnoreHotplugConnect s inp.hasIdentificationData = true := by
          simp [shouldIgnoreHotplugConnect, hmode, hi, he]
        simp only [onHotplugConnect, toPhysicalDisplayId, hm, if_neg hemp]
        rw [if_pos hsi]

theorem addressing_mode_selection_witness :
    exState.physicalDisplayIdMap ≠ []
    ∧ (onHotplugConnect exState 7 hpWithData).2.hasMultiDisplaySupport
        = exState.hasMultiDisplaySupport
    ∧ (onHotplugConnect s0 1 hpNoData).2.hasMultiDisplaySupport
        = hpNoData.hasIdentificationData
    ∧ onHotplugConnect
        { exState with externalHwcDisplayId := some 8 } 9 hpNoData
      = (none, { exState with externalHwcDisplayId := some 8 }) :=
  ⟨by decide,
    (addressing_mode_selection exState 7 hpWithData).1 (by decide),
    (addressing_mode_selection s0 1 hpNoData).2.1 (by decide),
    (addressing_mode_selection { exState with externalHwcDisplayId := some 8 }
      9 hpNoData).2.2 (by decide) (by decide) (by decide) (by decide)
      (Or.inl (by decide))⟩

end HWComposer
